import Mathlib

/-!
Verification of the WebCloset API search/click handlers.

The definitions below are a shallow embedding of the two relational route
implementations, `src/main.py` (the "legacy" handler set) and
`src/app/main.py` (the "app" handler set).  Both build an identical pair of
parameterized SQL statements; they differ in pre-query validation and in
error handling, and the embedding keeps both where they differ.

Modelling conventions:
* Python floats (the dollar price bounds) are modelled as exact rationals;
  Python `int(x)` truncation toward zero is modelled by `intTrunc`.
* Python `Optional[str] = ""` for the text query is modelled as a plain
  `String` (both `None` and `""` are falsy in the guarding `if`).
* SQL single-quote characters inside constant query text are produced by
  `sqlQuote` (`Char.ofNat 39`), and the constant whitespace of the Python
  triple-quoted query strings is flattened to single spaces; every SQL
  token is kept verbatim.
-/

namespace WebCloset

/-- The four sort modes admitted by the pydantic
`Literal["best", "price_asc", "price_desc", "newest"]` field. -/
inductive SortMode where
  | best
  | price_asc
  | price_desc
  | newest
deriving DecidableEq, Repr

/-- The normalized search request consumed by `search_items`
(`src/main.py` lines 25-35, `src/app/main.py` lines 55-65). -/
structure SearchRequest where
  q : String
  brands : List String
  sizes : List String
  conditions : List String
  marketplaces : List String
  price_min : Option ℚ
  price_max : Option ℚ
  sort : SortMode
  page : ℕ
  per_page : ℕ
deriving DecidableEq, Repr

/-- A value bound into the ordered SQL parameter sequence. -/
inductive SqlParam where
  | str (s : String)
  | int (i : ℤ)
deriving DecidableEq, Repr

/-- Python `int(q)` truncation toward zero on an exact rational. -/
def intTrunc (q : ℚ) : ℤ :=
  if 0 ≤ q then ⌊q⌋ else -⌊-q⌋

/-- Whitespace stripping on the character list (Python `str.strip()`):
drop leading and trailing whitespace. -/
def charStrip (cs : List Char) : List Char :=
  ((cs.dropWhile Char.isWhitespace).reverse.dropWhile Char.isWhitespace).reverse

/-- Python `s.strip()` on a string. -/
def pyStrip (s : String) : String :=
  String.mk (charStrip s.data)

/-- Python `s.startswith(pre)`. -/
def pyStartsWith (s pre : String) : Bool :=
  pre.data.isPrefixOf s.data

/-- Suffix test on strings (used to state the ORDER BY tie-break). -/
def pyEndsWith (s suf : String) : Bool :=
  suf.data.isSuffixOf s.data

/-- Python `s.lower()`, character by character. -/
def pyLower (s : String) : String :=
  String.mk (s.data.map Char.toLower)

/-- Python `raw.split(",")` on the character list: split at every comma,
keeping empty components. -/
def commaSplit : List Char → List (List Char)
  | [] => [[]]
  | c :: rest =>
      match commaSplit rest with
      | [] => [[]]
      | t :: ts => if c = ',' then [] :: t :: ts else (c :: t) :: ts

/-- Dollars to integer cents: `int(price * 100)`
(`src/main.py` lines 145/149, `src/app/main.py` lines 235/239). -/
def dollarsToCents (d : ℚ) : ℤ :=
  intTrunc (d * 100)

/-- Guard of the text-search predicate: `if request.q and request.q.strip():`
(non-empty string whose strip is also non-empty). -/
def qPresent (q : String) : Bool :=
  q != "" && pyStrip q != ""

/-- SQL single-quote character, kept out of string literals. -/
def sqlQuote : String :=
  String.singleton (Char.ofNat 39)

/-- The SQL string literal separator argument of STRING_AGG. -/
def sepLit : String :=
  sqlQuote ++ ", " ++ sqlQuote

/-- The text-search WHERE condition (whitespace flattened):
`(ic.title ILIKE %s OR ic.brand ILIKE %s OR ic.category ILIKE %s)`. -/
def textCondition : String :=
  "( ic.title ILIKE %s OR ic.brand ILIKE %s OR ic.category ILIKE %s )"

/-- Placeholder list for an IN predicate: `",".join(["%s"] * n)`. -/
def placeholders (n : ℕ) : String :=
  String.intercalate "," (List.replicate n "%s")

/-- The WHERE conditions, in source order (text, brands, sizes, conditions,
marketplaces, price_min, price_max); each present only when its request
field is non-empty.  User-supplied values never appear here: only the
count of `%s` placeholders depends on the request (via list lengths). -/
def whereConditions (r : SearchRequest) : List String :=
  (if qPresent r.q then [textCondition] else []) ++
  (if r.brands.isEmpty then [] else
    ["ic.brand IN (" ++ placeholders r.brands.length ++ ")"]) ++
  (if r.sizes.isEmpty then [] else
    ["s.size IN (" ++ placeholders r.sizes.length ++ ")"]) ++
  (if r.conditions.isEmpty then [] else
    ["s.condition IN (" ++ placeholders r.conditions.length ++ ")"]) ++
  (if r.marketplaces.isEmpty then [] else
    ["s.marketplace_code IN (" ++ placeholders r.marketplaces.length ++ ")"]) ++
  (if r.price_min.isSome then ["s.price_cents >= %s"] else []) ++
  (if r.price_max.isSome then ["s.price_cents <= %s"] else [])

/-- `where_clause = f"WHERE {' AND '.join(where_conditions)}"` when any
condition is present, else the empty string. -/
def whereClause (r : SearchRequest) : String :=
  if (whereConditions r).isEmpty then ""
  else "WHERE " ++ String.intercalate " AND " (whereConditions r)

/-- The ordered parameter sequence accumulated alongside the WHERE
conditions; every user-supplied value lands here and only here. -/
def sqlParams (r : SearchRequest) : List SqlParam :=
  (if qPresent r.q then
    [SqlParam.str ("%" ++ pyStrip r.q ++ "%"),
     SqlParam.str ("%" ++ pyStrip r.q ++ "%"),
     SqlParam.str ("%" ++ pyStrip r.q ++ "%")] else []) ++
  r.brands.map SqlParam.str ++
  r.sizes.map SqlParam.str ++
  r.conditions.map SqlParam.str ++
  r.marketplaces.map SqlParam.str ++
  (match r.price_min with
   | some d => [SqlParam.int (dollarsToCents d)]
   | none => []) ++
  (match r.price_max with
   | some d => [SqlParam.int (dollarsToCents d)]
   | none => [])

/-- ORDER BY clause selection (`src/main.py` lines 156-164,
`src/app/main.py` lines 246-254), verbatim from the source. -/
def orderBy : SortMode → String
  | SortMode.price_asc => "MIN(s.price_cents) ASC NULLS LAST, ic.id DESC"
  | SortMode.price_desc => "MIN(s.price_cents) DESC NULLS LAST, ic.id DESC"
  | SortMode.newest => "ic.last_seen DESC, ic.id DESC"
  | SortMode.best =>
      "(MIN(s.price_cents) * 0.7 + (1.0 / COUNT(s.*)) * 1000) ASC, ic.id DESC"

/-- The constant SELECT/FROM/JOIN prefix of the search query
(whitespace flattened, SQL quotes via `sepLit`). -/
def searchSelectFrom : String :=
  "SELECT ic.id, ic.brand, ic.title, ic.category, ic.image_url, " ++
  "MIN(s.price_cents) AS price_cents, COUNT(s.*) AS listings_count, " ++
  "STRING_AGG(DISTINCT s.condition, " ++ sepLit ++ " ORDER BY s.condition) AS condition, " ++
  "STRING_AGG(DISTINCT s.marketplace_code, " ++ sepLit ++ ") AS marketplace_code, " ++
  "STRING_AGG(DISTINCT s.size, " ++ sepLit ++ " ORDER BY s.size) AS size, " ++
  "ARRAY_AGG(DISTINCT s.seller_url) AS seller_urls " ++
  "FROM item_canonical ic " ++
  "JOIN item_links l ON l.canonical_id = ic.id AND l.active = true " ++
  "JOIN item_source s ON s.id = l.source_id "

/-- The full search query text: SELECT prefix, WHERE clause, GROUP BY,
ORDER BY and the parameter-bound LIMIT/OFFSET tail. -/
def searchQueryText (r : SearchRequest) : String :=
  searchSelectFrom ++ whereClause r ++
  " GROUP BY ic.id ORDER BY " ++ orderBy r.sort ++ " LIMIT %s OFFSET %s"

/-- The constant prefix of the count query. -/
def countSelectFrom : String :=
  "SELECT COUNT(DISTINCT ic.id) as total " ++
  "FROM item_canonical ic " ++
  "JOIN item_links l ON l.canonical_id = ic.id AND l.active = true " ++
  "JOIN item_source s ON s.id = l.source_id "

/-- The count query: same WHERE clause, no aggregation/sort/limit. -/
def countQueryText (r : SearchRequest) : String :=
  countSelectFrom ++ whereClause r

/-- `search_params = params + [request.per_page, offset]` where
`offset = (request.page - 1) * request.per_page`. -/
def searchParams (r : SearchRequest) : List SqlParam :=
  sqlParams r ++
  [SqlParam.int r.per_page, SqlParam.int ((r.page - 1) * r.per_page)]

/-- The data the generated SQL text may depend on: text-query presence,
the four list lengths, and presence of each price bound. -/
structure Shape where
  qp : Bool
  nBrands : ℕ
  nSizes : ℕ
  nConditions : ℕ
  nMarketplaces : ℕ
  hasMin : Bool
  hasMax : Bool
deriving DecidableEq, Repr

/-- Shape of a request: field presence and list lengths. -/
def shape (r : SearchRequest) : Shape :=
  ⟨qPresent r.q, r.brands.length, r.sizes.length, r.conditions.length,
   r.marketplaces.length, r.price_min.isSome, r.price_max.isSome⟩

/-! ### Handler control flow up to the backend (POST /search) -/

/-- One observable step of a search handler: a fail-fast HTTP error, the
acquisition of a database connection, or the execution of a query. -/
inductive Step where
  | fail (status : ℕ) (detail : String)
  | connect
  | query (sql : String) (ps : List SqlParam)
deriving DecidableEq, Repr

/-- Python truthiness of `x is not None and x < 0` on an optional rational. -/
def optNeg (o : Option ℚ) : Bool :=
  match o with
  | some x => x < 0
  | none => false

/-- Pre-connection input validation of the app handler
(`src/app/main.py` lines 181-188). -/
def appValidationError (r : SearchRequest) : Option (ℕ × String) :=
  if optNeg r.price_min then
    some (400, "Price minimum must be non-negative")
  else if optNeg r.price_max then
    some (400, "Price maximum must be non-negative")
  else if (match r.price_min, r.price_max with
           | some a, some b => decide (a > b)
           | _, _ => false) then
    some (400, "Price minimum cannot be greater than maximum")
  else none

/-- Step trace of the app POST /search handler: validation first; only
when it passes is a connection acquired and the two queries executed. -/
def appSearchSteps (r : SearchRequest) : List Step :=
  match appValidationError r with
  | some (s, d) => [Step.fail s d]
  | none =>
      [Step.connect,
       Step.query (searchQueryText r) (searchParams r),
       Step.query (countQueryText r) (sqlParams r)]

/-- Step trace of the legacy POST /search handler (`src/main.py` lines
94-208): it performs no input validation and connects immediately. -/
def legacySearchSteps (r : SearchRequest) : List Step :=
  [Step.connect,
   Step.query (searchQueryText r) (searchParams r),
   Step.query (countQueryText r) (sqlParams r)]

/-! ### GET /click -/

/-- Response of the click endpoint. -/
inductive ClickResponse where
  | redirect (status : ℕ) (url : String)
  | httpError (status : ℕ) (detail : String)
deriving DecidableEq, Repr

/-- Body of the `try` block of the app click handler
(`src/app/main.py` lines 410-420), given the row selected by
`ORDER BY s.price_cents ASC NULLS LAST LIMIT 1` (the lowest-priced active
listing, `none` when the item or its listings do not exist).  The
`HTTPException` raises are modelled as `Except.error`. -/
def clickTryBody (row : Option String) : Except (ℕ × String) ClickResponse :=
  match row with
  | none => Except.error (404, "Item not found")
  | some url =>
      if url != "" && (pyStartsWith url "http://" || pyStartsWith url "https://") then
        Except.ok (ClickResponse.redirect 302 url)
      else
        Except.error (422, "Invalid seller URL")

/-- The app GET /click handler (`src/app/main.py` lines 388-429).
FastAPI `HTTPException` is a subclass of `Exception`, so the 404 and 422
raised inside the `try` block are caught by the final
`except Exception` clause and re-raised as a 500 "Redirect failed". -/
def appClick (id : String) (row : Option String) : ClickResponse :=
  if id == "" || pyStrip id == "" then
    ClickResponse.httpError 400 "Item ID is required"
  else
    match clickTryBody row with
    | Except.ok resp => resp
    | Except.error _ => ClickResponse.httpError 500 "Redirect failed"

/-- The legacy GET /click handler (`src/main.py` lines 280-310): no id
check and no URL-scheme check; the 404 raised on a missing row is likewise
swallowed by `except Exception` and re-raised as a 500 (whose detail
interpolates the caught exception; the interpolated text is elided). -/
def legacyClick (row : Option String) : ClickResponse :=
  match row with
  | none => ClickResponse.httpError 500 "Redirect failed"
  | some url => ClickResponse.redirect 302 url

/-! ### Pagination arithmetic and ranking -/

/-- `total_pages = (total + request.per_page - 1) // request.per_page`. -/
def totalPages (total per_page : ℕ) : ℕ :=
  (total + per_page - 1) / per_page

/-- `has_more = request.page * request.per_page < total`. -/
def hasMore (page per_page total : ℕ) : Bool :=
  page * per_page < total

/-- The `best` ranking score, transcribing the ORDER BY expression
`MIN(s.price_cents) * 0.7 + (1.0 / COUNT(s.*)) * 1000`; smaller is
ranked earlier (the clause sorts ascending). -/
def bestScore (price listings : ℚ) : ℚ :=
  price * (7 / 10) + 1 / listings * 1000

/-! ### GET /search normalization -/

/-- List-field splitting of the GET handler, e.g.
`[b.strip() for b in brands.split(",") if b.strip()] if brands else []`
(`src/main.py` lines 267-270, `src/app/main.py` lines 372-375). -/
def splitList (raw : String) : List String :=
  if raw == "" then []
  else ((commaSplit raw.data).map (fun cs => String.mk (charStrip cs))).filter (· != "")

/-- The four sort tokens of the GET handler membership test. -/
def sortTokens : List String :=
  ["best", "price_asc", "price_desc", "newest"]

/-- Modelled from the spec and the `Literal` annotation: pydantic field
validation of `sort` for the POST body (`src/app/main.py` line 63).  The
enforcement lives in the pydantic/FastAPI collaborators, not under `src/`;
a token outside the literal set parses to `none` and the framework rejects
the request with a 422 validation error before the handler body runs. -/
def parseSortLiteral (s : String) : Option SortMode :=
  if s == "best" then some SortMode.best
  else if s == "price_asc" then some SortMode.price_asc
  else if s == "price_desc" then some SortMode.price_desc
  else if s == "newest" then some SortMode.newest
  else none

/-- Outcome of submitting a sort token to the POST endpoint. -/
inductive PostOutcome where
  | rejected (status : ℕ)
  | handled (m : SortMode)
deriving DecidableEq, Repr

/-- POST body validation of the sort field: reject with 422 before the
handler body, or hand the parsed mode to the handler. -/
def postSortPipeline (s : String) : PostOutcome :=
  match parseSortLiteral s with
  | none => PostOutcome.rejected 422
  | some m => PostOutcome.handled m

/-- GET query-string defaulting:
`sort if sort in ["best", "price_asc", "price_desc", "newest"] else "best"`
(`src/main.py` line 273, `src/app/main.py` line 378). -/
def getNormalizeSort (s : String) : String :=
  if sortTokens.contains s then s else "best"

/-! ### Result rows, ordering semantics and response assembly -/

/-- One aggregated result row (one canonical item): the selected columns
of the search query plus `ic.last_seen`, which the `newest` ORDER BY
reads.  `price_cents` is the MIN aggregate and may be NULL. -/
structure Row where
  id : ℤ
  brand : Option String
  title : Option String
  category : Option String
  image_url : Option String
  price_cents : Option ℤ
  listings_count : ℕ
  condition : Option String
  marketplace_code : Option String
  size : Option String
  seller_urls : Option (List String)
  lastSeen : ℤ
deriving DecidableEq, Repr

/-- The response item built from a row (`SearchItem(...)` construction,
`src/app/main.py` lines 306-318): `id` is stringified and a NULL
`seller_urls` array defaults to the empty list. -/
structure SearchItem where
  id : String
  brand : Option String
  title : Option String
  category : Option String
  image_url : Option String
  price_cents : Option ℤ
  listings_count : ℕ
  condition : Option String
  marketplace_code : Option String
  size : Option String
  seller_urls : List String
deriving DecidableEq, Repr

/-- Row-to-item mapping. -/
def toItem (row : Row) : SearchItem :=
  { id := toString row.id
    brand := row.brand
    title := row.title
    category := row.category
    image_url := row.image_url
    price_cents := row.price_cents
    listings_count := row.listings_count
    condition := row.condition
    marketplace_code := row.marketplace_code
    size := row.size
    seller_urls := row.seller_urls.getD [] }

/-- The ResultPage: the fields of `SearchResponse` shared by both
implementations (the app variant adds a wall-clock `search_time_ms`,
which is not part of the ResultPage data model). -/
structure SearchResponse where
  items : List SearchItem
  total : ℕ
  page : ℕ
  per_page : ℕ
  total_pages : ℕ
  has_more : Bool
deriving DecidableEq, Repr

/-- Sort key of a row under a sort mode, as a lexicographic triple
(null flag, primary value, negated id): Postgres orders by the primary
expression with NULLS LAST (explicit on the DESC price sort, the default
for ASC), then breaks ties by `ic.id DESC`, here encoded as ascending
`-id`.  `best` divides by the COUNT aggregate, which is at least 1 for
every emitted group (inner joins), so the score is NULL exactly when the
MIN price is. -/
def keyOf (m : SortMode) (a : Row) : ℚ ×ₗ ℚ ×ₗ ℤ :=
  match m with
  | SortMode.price_asc =>
      match a.price_cents with
      | some p => toLex ((0 : ℚ), toLex ((p : ℚ), -a.id))
      | none => toLex ((1 : ℚ), toLex ((0 : ℚ), -a.id))
  | SortMode.price_desc =>
      match a.price_cents with
      | some p => toLex ((0 : ℚ), toLex ((-p : ℚ), -a.id))
      | none => toLex ((1 : ℚ), toLex ((0 : ℚ), -a.id))
  | SortMode.newest =>
      toLex ((0 : ℚ), toLex ((-a.lastSeen : ℚ), -a.id))
  | SortMode.best =>
      match a.price_cents with
      | some p => toLex ((0 : ℚ), toLex (bestScore (p : ℚ) (a.listings_count : ℚ), -a.id))
      | none => toLex ((1 : ℚ), toLex ((0 : ℚ), -a.id))

/-- Strict row ordering denoted by the ORDER BY clause of mode `m`:
`a` is emitted before `b`. -/
def rowLt (m : SortMode) (a b : Row) : Prop :=
  keyOf m a < keyOf m b

instance rowLtDecidable (m : SortMode) (a b : Row) : Decidable (rowLt m a b) := by
  unfold rowLt; infer_instance

instance rowLtAntisymm (m : SortMode) : IsAntisymm Row (rowLt m) :=
  ⟨fun _ _ h₁ h₂ => absurd h₂ (lt_asymm h₁)⟩

/-- Response assembly from the full ORDER-BY-sorted result sequence:
the backend applies `LIMIT per_page OFFSET (page-1)*per_page`, rows are
mapped to items, and the pagination fields are computed. -/
def buildResponse (r : SearchRequest) (sortedRows : List Row) (total : ℕ) :
    SearchResponse :=
  { items := ((sortedRows.drop ((r.page - 1) * r.per_page)).take r.per_page).map toItem
    total := total
    page := r.page
    per_page := r.per_page
    total_pages := totalPages total r.per_page
    has_more := hasMore r.page r.per_page total }

/-- Semantic price filter denoted by the two price WHERE conditions
`s.price_cents >= %s` and `s.price_cents <= %s` (present-only). -/
def pricePasses (minC maxC : Option ℤ) (p : ℤ) : Bool :=
  minC.all (fun m => m ≤ p) && maxC.all (fun M => p ≤ M)

/-! ### Concrete fixtures -/

/-- The all-default request (empty filters, sort `best`, first page). -/
def emptyRequest : SearchRequest :=
  { q := "", brands := [], sizes := [], conditions := [], marketplaces := []
    price_min := none, price_max := none, sort := SortMode.best
    page := 1, per_page := 24 }

/-- The same request with `sort = newest`. -/
def emptyRequestNewest : SearchRequest :=
  { emptyRequest with sort := SortMode.newest }

/-- A request with an inverted price range: `price_min=300, price_max=100`. -/
def rBadRange : SearchRequest :=
  { emptyRequest with price_min := some 300, price_max := some 100 }

/-! ### Theorems -/

/-- C2 counterexample: on the `src/main.py` handler, the request with
`price_min=300 > price_max=100` produces no validation failure — its very
first step acquires a database connection, and no step of its trace is a
fail-fast error. -/
theorem legacy_no_range_validation :
    (legacySearchSteps rBadRange).head? = some Step.connect ∧
    ((legacySearchSteps rBadRange).all fun st =>
      match st with
      | Step.fail _ _ => false
      | _ => true) = true := by
  exact ⟨rfl, rfl⟩

/-- C2 (amended): in the `src/app/main.py` handler, whenever both price
bounds are present and `price_min > price_max`, the trace is a single
400 validation failure — no connection is acquired and no query runs. -/
theorem app_range_validation_fails_fast (r : SearchRequest) (a b : ℚ)
    (hmin : r.price_min = some a) (hmax : r.price_max = some b) (hab : b < a) :
    ∃ d, appSearchSteps r = [Step.fail 400 d] := by
  unfold appSearchSteps appValidationError
  rw [hmin, hmax]
  simp only [optNeg]
  split_ifs with h1 h2 h3
  · exact ⟨_, rfl⟩
  · exact ⟨_, rfl⟩
  · exact ⟨_, rfl⟩
  · exact absurd (decide_eq_true hab) h3

/-- C2 witness: the amended statement at `price_min=300, price_max=100`. -/
theorem app_range_validation_fails_fast_witness :
    ∃ d, appSearchSteps rBadRange = [Step.fail 400 d] :=
  app_range_validation_fails_fast rBadRange 300 100 rfl rfl (by norm_num)

/-- C3: the app click handler returns a 500 "Redirect failed" — not a
404 — when the item has no row, and a 500 — not a 400/422 — when the
selected seller URL has scheme `ftp://`, because the blanket
`except Exception` catches the handler's own `HTTPException(404)` and
`HTTPException(422)`; an `https` URL does redirect with 302; and the
legacy handler redirects to the `ftp://` URL outright. -/
theorem click_behavior :
    appClick "missing-id" none = ClickResponse.httpError 500 "Redirect failed" ∧
    appClick "item-1" (some "ftp://seller.example/x")
      = ClickResponse.httpError 500 "Redirect failed" ∧
    appClick "item-2" (some "https://seller.example/x")
      = ClickResponse.redirect 302 "https://seller.example/x" ∧
    legacyClick (some "ftp://seller.example/x")
      = ClickResponse.redirect 302 "ftp://seller.example/x" := by
  refine ⟨rfl, ?_, ?_, rfl⟩ <;> decide

/-- C5: the `best` ORDER BY clause is exactly the source expression,
sorted ascending with the id tie-break; its score is the weighted blend
`0.7 * price + 1000 * (1 / listings)`; a lower representative price
strictly lowers (improves) the score, and a higher listing count strictly
lowers (improves) the score. -/
theorem best_rank_blend :
    orderBy SortMode.best
      = "(MIN(s.price_cents) * 0.7 + (1.0 / COUNT(s.*)) * 1000) ASC, ic.id DESC" ∧
    (∀ p c : ℚ, bestScore p c = 7 / 10 * p + 1000 * (1 / c)) ∧
    (∀ p₁ p₂ c : ℚ, p₁ < p₂ → bestScore p₁ c < bestScore p₂ c) ∧
    (∀ p c₁ c₂ : ℚ, 0 < c₁ → c₁ < c₂ → bestScore p c₂ < bestScore p c₁) := by
  refine ⟨rfl, fun p c => by unfold bestScore; ring, fun p₁ p₂ c h => ?_,
    fun p c₁ c₂ h₁ h₂ => ?_⟩
  · unfold bestScore
    have : p₁ * (7 / 10) < p₂ * (7 / 10) := by linarith
    linarith
  · unfold bestScore
    have h3 : 1 / c₂ < 1 / c₁ := one_div_lt_one_div_of_lt h₁ h₂
    have : 1 / c₂ * 1000 < 1 / c₁ * 1000 := by linarith
    linarith

/-- C5 witness: the monotonicity parts at concrete scores. -/
theorem best_rank_blend_witness :
    bestScore 1 1 < bestScore 2 1 ∧ bestScore 3 2 < bestScore 3 1 :=
  ⟨best_rank_blend.2.2.1 1 2 1 (by norm_num),
   best_rank_blend.2.2.2 3 1 2 (by norm_num) (by norm_num)⟩

/-- C7 counterexample: the GET list splitting of `"Nike,Nike"` keeps the
duplicate and the original capitalization: the result is not deduplicated
and not lower-cased. -/
theorem split_keeps_duplicates_and_case :
    splitList "Nike,Nike" = ["Nike", "Nike"] ∧
    ¬ (splitList "Nike,Nike").Nodup ∧
    ((splitList "Nike,Nike").all fun t => pyLower t == t) = false := by
  refine ⟨?_, ?_, ?_⟩ <;> decide

/-- C7 (amended): each comma-separated list field is split into exactly
the list of non-empty stripped tokens of the comma-split, in source
order — a full characterization, so duplicates and letter case are
preserved and nothing is deduplicated, dropped or lower-cased (the
Python `if brands else []` guard for the empty string is proved
redundant by the equality). -/
theorem split_amended (raw : String) :
    splitList raw
      = ((commaSplit raw.data).map (fun cs => String.mk (charStrip cs))).filter
          (· != "") := by
  unfold splitList
  split
  · rename_i h
    have hr : raw = "" := by simpa using h
    subst hr
    rfl
  · rfl

/-- C7 witness: the amended equality at the input `"a,,b"`. -/
theorem split_amended_witness :
    splitList "a,,b"
      = ((commaSplit "a,,b".data).map (fun cs => String.mk (charStrip cs))).filter
          (· != "") :=
  split_amended "a,,b"

/-- C10: a sort token outside the four literals is rejected by the POST
body validation with a 422 before the handler body runs, while the GET
query-string path silently replaces the same token by `best` and then
delegates successfully. -/
theorem unknown_sort_handling (s : String) (h : s ∉ sortTokens) :
    postSortPipeline s = PostOutcome.rejected 422 ∧
    getNormalizeSort s = "best" ∧
    postSortPipeline (getNormalizeSort s) = PostOutcome.handled SortMode.best := by
  simp only [sortTokens, List.mem_cons, List.not_mem_nil, or_false, not_or] at h
  obtain ⟨h1, h2, h3, h4⟩ := h
  have hb : getNormalizeSort s = "best" := by
    simp [getNormalizeSort, sortTokens, h1, h2, h3, h4]
  refine ⟨?_, hb, by rw [hb]; rfl⟩
  simp [postSortPipeline, parseSortLiteral, h1, h2, h3, h4]

/-- C10 witness: the statement at the unknown token `"oldest"`. -/
theorem unknown_sort_handling_witness :
    postSortPipeline "oldest" = PostOutcome.rejected 422 ∧
    getNormalizeSort "oldest" = "best" ∧
    postSortPipeline (getNormalizeSort "oldest") = PostOutcome.handled SortMode.best :=
  unknown_sort_handling "oldest" (by decide)

/-! ### C1: SQL text depends only on shape (and sort) -/

/-- Lists of equal length are simultaneously empty. -/
theorem isEmpty_congr_of_length {α β : Type} {l₁ : List α} {l₂ : List β}
    (h : l₁.length = l₂.length) : l₁.isEmpty = l₂.isEmpty := by
  cases l₁ <;> cases l₂ <;> simp_all

/-- The WHERE conditions are determined by the request shape. -/
theorem whereConditions_congr {r₁ r₂ : SearchRequest} (h : shape r₁ = shape r₂) :
    whereConditions r₁ = whereConditions r₂ := by
  have hq : qPresent r₁.q = qPresent r₂.q := congrArg Shape.qp h
  have hb : r₁.brands.length = r₂.brands.length := congrArg Shape.nBrands h
  have hs : r₁.sizes.length = r₂.sizes.length := congrArg Shape.nSizes h
  have hc : r₁.conditions.length = r₂.conditions.length := congrArg Shape.nConditions h
  have hm : r₁.marketplaces.length = r₂.marketplaces.length := congrArg Shape.nMarketplaces h
  have hmin : r₁.price_min.isSome = r₂.price_min.isSome := congrArg Shape.hasMin h
  have hmax : r₁.price_max.isSome = r₂.price_max.isSome := congrArg Shape.hasMax h
  unfold whereConditions
  rw [hq, isEmpty_congr_of_length hb, hb, isEmpty_congr_of_length hs, hs,
    isEmpty_congr_of_length hc, hc, isEmpty_congr_of_length hm, hm, hmin, hmax]

set_option maxRecDepth 4000 in
/-- C1 counterexample: two requests with identical field presence and
identical list lengths (the all-default request under `best` and under
`newest`) generate different SQL text, because the ORDER BY clause is
chosen from the sort mode. -/
theorem sql_text_depends_on_sort :
    shape emptyRequest = shape emptyRequestNewest ∧
    searchQueryText emptyRequest ≠ searchQueryText emptyRequestNewest := by
  refine ⟨rfl, ?_⟩
  decide

/-- C1 (amended): user-supplied values reach only the ordered parameter
sequence; the generated SQL text of both the search query and the count
query is a function of the request shape (field presence and list
lengths) and the sort mode alone. -/
theorem sql_text_shape_determined (r₁ r₂ : SearchRequest)
    (hs : shape r₁ = shape r₂) (hm : r₁.sort = r₂.sort) :
    searchQueryText r₁ = searchQueryText r₂ ∧
    countQueryText r₁ = countQueryText r₂ := by
  have hw : whereClause r₁ = whereClause r₂ := by
    unfold whereClause
    rw [whereConditions_congr hs]
  unfold searchQueryText countQueryText
  rw [hw, hm]
  exact ⟨rfl, rfl⟩

/-- A request with values differing from `rGucciShape` everywhere but with
the same shape. -/
def rNikeShape : SearchRequest :=
  { q := "dress", brands := ["nike"], sizes := [], conditions := ["new"]
    marketplaces := [], price_min := some 10, price_max := none
    sort := SortMode.best, page := 1, per_page := 24 }

/-- A request with the same shape as `rNikeShape` but different values. -/
def rGucciShape : SearchRequest :=
  { q := "coats", brands := ["gucci"], sizes := [], conditions := ["used"]
    marketplaces := [], price_min := some 500, price_max := none
    sort := SortMode.best, page := 3, per_page := 10 }

/-- C1 witness: two concrete requests with different user-supplied values
but equal shape and sort generate identical SQL text. -/
theorem sql_text_shape_determined_witness :
    searchQueryText rNikeShape = searchQueryText rGucciShape ∧
    countQueryText rNikeShape = countQueryText rGucciShape :=
  sql_text_shape_determined rNikeShape rGucciShape (by decide) rfl

/-! ### C4: pagination formulas -/

/-- C4: `total_pages` as computed by `(total + per_page - 1) // per_page`
is the ceiling of `total / per_page`; `has_more` holds exactly when
`page * per_page < total`; and the count query is built from the same
WHERE clause as the search query. -/
theorem pagination_formulas (total per_page page : ℕ) (r : SearchRequest)
    (h : 1 ≤ per_page) :
    ((totalPages total per_page : ℤ) = ⌈(total : ℚ) / (per_page : ℚ)⌉) ∧
    (hasMore page per_page total = true ↔ page * per_page < total) ∧
    countQueryText r = countSelectFrom ++ whereClause r ∧
    searchQueryText r
      = searchSelectFrom ++ whereClause r ++ " GROUP BY ic.id ORDER BY "
        ++ orderBy r.sort ++ " LIMIT %s OFFSET %s" := by
  refine ⟨?_, by simp [hasMore], rfl, rfl⟩
  unfold totalPages
  have hp : 0 < per_page := h
  have hmod := Nat.div_add_mod (total + per_page - 1) per_page
  have hlt : (total + per_page - 1) % per_page < per_page := Nat.mod_lt _ hp
  set d := (total + per_page - 1) / per_page with hd
  obtain ⟨pq, hpq⟩ : ∃ x, per_page * d = x := ⟨_, rfl⟩
  rw [hpq] at hmod
  have hub : total ≤ pq := by omega
  have hlow : pq < total + per_page := by omega
  have hubd : total ≤ per_page * d := by rw [hpq]; exact hub
  have hlowd : per_page * d < total + per_page := by rw [hpq]; exact hlow
  have hqp : (0 : ℚ) < (per_page : ℚ) := by exact_mod_cast hp
  have hubq : (total : ℚ) ≤ (per_page : ℚ) * (d : ℚ) := by exact_mod_cast hubd
  have hlowq : (per_page : ℚ) * (d : ℚ) < (total : ℚ) + (per_page : ℚ) := by
    exact_mod_cast hlowd
  have hle : ⌈(total : ℚ) / (per_page : ℚ)⌉ ≤ (d : ℤ) := by
    rw [Int.ceil_le, div_le_iff₀ hqp]
    push_cast
    linarith
  have hgt : ((d : ℤ) - 1) < ⌈(total : ℚ) / (per_page : ℚ)⌉ := by
    rw [Int.lt_ceil, lt_div_iff₀ hqp]
    push_cast
    linarith
  omega

/-- C4 witness: the formulas at `total=5, per_page=2, page=1` on the
all-default request. -/
theorem pagination_formulas_witness :
    ((totalPages 5 2 : ℤ) = ⌈(5 : ℚ) / (2 : ℚ)⌉) ∧
    (hasMore 1 2 5 = true ↔ 1 * 2 < 5) ∧
    countQueryText emptyRequest = countSelectFrom ++ whereClause emptyRequest ∧
    searchQueryText emptyRequest
      = searchSelectFrom ++ whereClause emptyRequest ++ " GROUP BY ic.id ORDER BY "
        ++ orderBy emptyRequest.sort ++ " LIMIT %s OFFSET %s" :=
  pagination_formulas 5 2 1 emptyRequest (by norm_num)

/-! ### C6: deterministic ordering via the id tie-break -/

/-- The id component of a sort key. -/
def keyId (k : ℚ ×ₗ ℚ ×ₗ ℤ) : ℤ :=
  (ofLex (ofLex k).2).2

/-- Every sort key carries `-id` as its final component. -/
theorem keyOf_keyId (m : SortMode) (a : Row) : keyId (keyOf m a) = -a.id := by
  cases m <;> rcases hpc : a.price_cents with _ | p <;>
    simp [keyOf, keyId, hpc]

/-- Rows with distinct ids have distinct sort keys in every mode. -/
theorem keyOf_ne (m : SortMode) {a b : Row} (h : a.id ≠ b.id) :
    keyOf m a ≠ keyOf m b := by
  intro he
  have h2 := congrArg keyId he
  rw [keyOf_keyId, keyOf_keyId] at h2
  exact h (by omega)

/-- C6: the ORDER BY clause of every sort mode ends with the
`ic.id DESC` tie-break, and the denoted row ordering is total: for any
two rows with distinct canonical ids, exactly one of them precedes the
other, in every mode. -/
theorem sort_tiebreak_total :
    (∀ m : SortMode, pyEndsWith (orderBy m) ", ic.id DESC" = true) ∧
    (∀ (m : SortMode) (a b : Row), a.id ≠ b.id →
      (rowLt m a b ↔ ¬ rowLt m b a)) := by
  constructor
  · intro m
    cases m <;> decide
  · intro m a b h
    constructor
    · intro h1 h2
      exact lt_asymm h1 h2
    · intro hn
      rcases lt_trichotomy (keyOf m a) (keyOf m b) with hlt | heq | hgt
      · exact hlt
      · exact absurd heq (keyOf_ne m h)
      · exact absurd hgt hn

/-- A concrete aggregated row. -/
def rowA : Row :=
  { id := 1, brand := none, title := none, category := none, image_url := none
    price_cents := some 1000, listings_count := 2, condition := none
    marketplace_code := none, size := none, seller_urls := none, lastSeen := 0 }

/-- A second concrete row with a different id and a lower price. -/
def rowB : Row :=
  { rowA with id := 2, price_cents := some 500 }

/-- C6 witness: the tie-break suffix for `best`, and totality of the
`best` ordering at two concrete rows with distinct ids. -/
theorem sort_tiebreak_total_witness :
    pyEndsWith (orderBy SortMode.best) ", ic.id DESC" = true ∧
    (rowLt SortMode.best rowA rowB ↔ ¬ rowLt SortMode.best rowB rowA) :=
  ⟨sort_tiebreak_total.1 SortMode.best,
   sort_tiebreak_total.2 SortMode.best rowA rowB (by decide)⟩

/-! ### C8: price conversion and inclusive bounds -/

/-- C8: a present dollar bound is converted by multiplying by 100 and
truncating (`19.999` dollars become `1999` cents), the converted bound is
bound into the parameter sequence, and the price predicates are
inclusive at both ends. -/
theorem price_cents_conversion :
    dollarsToCents (19999 / 1000) = 1999 ∧
    (∀ (r : SearchRequest) (d : ℚ), r.price_min = some d →
      SqlParam.int (dollarsToCents d) ∈ sqlParams r) ∧
    (∀ (r : SearchRequest) (d : ℚ), r.price_max = some d →
      SqlParam.int (dollarsToCents d) ∈ sqlParams r) ∧
    (∀ mn mx p : ℤ, pricePasses (some mn) (some mx) p = true ↔ mn ≤ p ∧ p ≤ mx) := by
  refine ⟨?_, ?_, ?_, ?_⟩
  · unfold dollarsToCents intTrunc
    rw [if_pos (by norm_num)]
    rw [show ((19999 : ℚ) / 1000) * 100 = (19999 : ℤ) / ((10 : ℕ) : ℚ) by push_cast; ring]
    rw [Rat.floor_intCast_div_natCast]
    norm_num
  · intro r d hd
    simp [sqlParams, hd]
  · intro r d hd
    simp [sqlParams, hd]
  · intro mn mx p
    simp [pricePasses, Option.all]

/-- A request with both price bounds present. -/
def rPriced : SearchRequest :=
  { emptyRequest with price_min := some 10, price_max := some 50 }

/-- C8 witness: parameter membership and boundary inclusivity at
concrete values. -/
theorem price_cents_conversion_witness :
    SqlParam.int (dollarsToCents 10) ∈ sqlParams rPriced ∧
    (pricePasses (some 5) (some 9) 5 = true ↔ (5 : ℤ) ≤ 5 ∧ (5 : ℤ) ≤ 9) :=
  ⟨price_cents_conversion.2.1 rPriced 10 rfl,
   price_cents_conversion.2.2.2 5 9 5⟩

/-! ### C9: identical requests over unchanged data give identical pages -/

/-- C9: the search result is deterministic — any two backend executions
of the same request over the same unchanged row set (two permutations of
the same rows, each consistent with the ORDER BY relation of the request)
assemble to identical ResultPages, in item order and in every field. -/
theorem search_result_deterministic (r : SearchRequest) (total : ℕ)
    (l₁ l₂ : List Row) (hperm : l₁.Perm l₂)
    (h₁ : l₁.Sorted (rowLt r.sort)) (h₂ : l₂.Sorted (rowLt r.sort)) :
    buildResponse r l₁ total = buildResponse r l₂ total := by
  rw [List.eq_of_perm_of_sorted hperm h₁ h₂]

/-- C9 witness: the determinism statement at the all-default request over
the one-row data set. -/
theorem search_result_deterministic_witness :
    buildResponse emptyRequest [rowA] 1 = buildResponse emptyRequest [rowA] 1 :=
  search_result_deterministic emptyRequest 1 [rowA] [rowA] (List.Perm.refl _)
    (List.sorted_singleton _) (List.sorted_singleton _)

end WebCloset
